import Mathlib

/-!
Verification of the 16x16 block-texture synthesis engine
(`tools/generate_new_block_textures.py`).

The Python code is shallowly embedded: the seeded pseudo-random stream is
modelled as an explicit state (an arbitrary infinite stream of naturals
plus a position), `rng.randint(a, b)` maps the next raw value into the
closed interval `[a, b]`, `rng.random()` yields a rational in `[0, 1)`
(Python floats that only drive branch decisions and exact interpolation
are modelled as exact rationals), and `rng.choice` indexes the list by the
next raw value.  The PIL canvas is a total function from coordinates to
pixels together with a sticky flag `oob` that records whether any write
ever targeted a coordinate outside `[0,15] x [0,15]`.
-/

structure RNG where
  stream : Nat → Nat
  pos : Nat

def RNG.next (r : RNG) : Nat × RNG :=
  (r.stream r.pos, RNG.mk r.stream (r.pos + 1))

/-- Model of Python `rng.randint(a, b)`: the next raw stream value reduced
into the closed interval `[a, b]`. -/
def randint (r : RNG) (a b : Int) : Int × RNG :=
  let s := RNG.next r
  (a + (s.1 : Int) % (b - a + 1), s.2)

/-- Model of Python `rng.random()`: a rational in `[0, 1)` with 53-bit
granularity, as produced by CPython's Mersenne Twister wrapper. -/
def randfloat (r : RNG) : ℚ × RNG :=
  let s := RNG.next r
  (((s.1 % 9007199254740992 : Nat) : ℚ) / 9007199254740992, s.2)

/-- Model of Python `rng.choice(l)`: index the list by the next raw
stream value (the list is never empty at any call site). -/
def choice {α : Type} (r : RNG) (l : List α) (d : α) : α × RNG :=
  let s := RNG.next r
  (l.getD (s.1 % l.length) d, s.2)

/-- Source `clamp(value, lo, hi)` (defaults `lo=0, hi=255` are passed
explicitly at call sites). -/
def clamp (value lo hi : Int) : Int :=
  max lo (min hi value)

structure Color where
  r : Int
  g : Int
  b : Int
deriving DecidableEq

structure Pixel where
  pr : Int
  pg : Int
  pb : Int
  pa : Int
deriving DecidableEq

def withAlpha (c : Color) (a : Int) : Pixel :=
  Pixel.mk c.r c.g c.b a

structure Canvas where
  pix : Fin 16 → Fin 16 → Pixel
  oob : Bool

/-- A pixel write `px[x, y] = p`.  In-bounds writes update the grid;
an out-of-bounds write sets the sticky `oob` flag. -/
def Canvas.set (c : Canvas) (x y : Int) (p : Pixel) : Canvas :=
  if 0 ≤ x ∧ x < 16 ∧ 0 ≤ y ∧ y < 16 then
    Canvas.mk (fun i j => if (i : Nat) = x.toNat ∧ (j : Nat) = y.toNat then p else c.pix i j) c.oob
  else Canvas.mk c.pix true

/-- `Image.new("RGBA", (16, 16), p)`. -/
def canvasFill (p : Pixel) : Canvas :=
  Canvas.mk (fun _ _ => p) false

/-- Source `jitter(color, amount, rng)`: one `randint(-amount, amount)`
draw per channel, in channel order R, G, B, each result clamped. -/
def jitter (color : Color) (amount : Int) (rng : RNG) : Color × RNG :=
  let s1 := randint rng (-amount) amount
  let s2 := randint s1.2 (-amount) amount
  let s3 := randint s2.2 (-amount) amount
  (Color.mk (clamp (color.r + s1.1) 0 255) (clamp (color.g + s2.1) 0 255)
    (clamp (color.b + s3.1) 0 255), s3.2)

/-- Python `int(q)`: truncation toward zero. -/
def truncInt (q : ℚ) : Int :=
  q.num.tdiv (q.den : Int)

/-- Source `blend(c1, c2, t)`: per channel `clamp(int(a + (b - a) * t))`. -/
def blend (c1 c2 : Color) (t : ℚ) : Color :=
  Color.mk (clamp (truncInt ((c1.r : ℚ) + ((c2.r : ℚ) - (c1.r : ℚ)) * t)) 0 255)
    (clamp (truncInt ((c1.g : ℚ) + ((c2.g : ℚ) - (c1.g : ℚ)) * t)) 0 255)
    (clamp (truncInt ((c1.b : ℚ) + ((c2.b : ℚ) - (c1.b : ℚ)) * t)) 0 255)

/-- The dark-fleck branch of `stone_base`:
`[clamp(c - rng.randint(8, 20)) for c in color]`, one draw per channel. -/
def fleck_dark (c : Color) (rng : RNG) : Color × RNG :=
  let s1 := randint rng 8 20
  let s2 := randint s1.2 8 20
  let s3 := randint s2.2 8 20
  (Color.mk (clamp (c.r - s1.1) 0 255) (clamp (c.g - s2.1) 0 255)
    (clamp (c.b - s3.1) 0 255), s3.2)

/-- The light-fleck branch of `stone_base`:
`[clamp(c + rng.randint(8, 20)) for c in color]`, one draw per channel. -/
def fleck_light (c : Color) (rng : RNG) : Color × RNG :=
  let s1 := randint rng 8 20
  let s2 := randint s1.2 8 20
  let s3 := randint s2.2 8 20
  (Color.mk (clamp (c.r + s1.1) 0 255) (clamp (c.g + s2.1) 0 255)
    (clamp (c.b + s3.1) 0 255), s3.2)

/-- One pixel of `stone_base`: jitter, then the dark-fleck check, else
the light-fleck check (the second `rng.random()` is only drawn when the
first check failed), then the write with alpha 255. -/
def stone_pixel (base : Color) (variation : Int) (dark_fleck_rate light_fleck_rate : ℚ)
    (st : Canvas × RNG) (x y : Int) : Canvas × RNG :=
  let j := jitter base variation st.2
  let d := randfloat j.2
  if d.1 < dark_fleck_rate then
    let f := fleck_dark j.1 d.2
    (st.1.set x y (withAlpha f.1 255), f.2)
  else
    let l := randfloat d.2
    if l.1 < light_fleck_rate then
      let f := fleck_light j.1 l.2
      (st.1.set x y (withAlpha f.1 255), f.2)
    else
      (st.1.set x y (withAlpha j.1 255), l.2)

/-- Source `stone_base`: row-major scan (y outer, x inner) over a canvas
initially filled with `(0, 0, 0, 255)`. -/
def stone_base (rng : RNG) (base : Color) (variation : Int)
    (dark_fleck_rate light_fleck_rate : ℚ) : Canvas × RNG :=
  (List.range 16).foldl
    (fun st (y : Nat) => (List.range 16).foldl
      (fun st2 (x : Nat) => stone_pixel base variation dark_fleck_rate light_fleck_rate st2 (x : Int) (y : Int)) st)
    (canvasFill (Pixel.mk 0 0 0 255), rng)

/-- The five cluster shapes of `add_ore_speckles`. -/
def speckle_shapes : List (List (Int × Int)) :=
  [[(0, 0)],
   [(0, 0), (1, 0)],
   [(0, 0), (0, 1)],
   [(0, 0), (1, 0), (0, 1)],
   [(0, 0), (-1, 0), (0, 1)]]

/-- The per-offset body of `add_ore_speckles`: clamp the target, pick a
color tier from a single uniform draw (`< 0.20` dark, `< 0.80` mid, else
light), write it, then conditionally write the light color one to the
right and the dark color one below (each guard checks bounds first, so
the probability draw only happens when the neighbor is in bounds). -/
def speckle_offset_step (ore_dark ore_mid ore_light : Color) (cx cy : Int)
    (st : Canvas × RNG) (off : Int × Int) : Canvas × RNG :=
  let x := clamp (cx + off.1) 0 15
  let y := clamp (cy + off.2) 0 15
  let pick := randfloat st.2
  let color := if pick.1 < 0.20 then ore_dark else if pick.1 < 0.80 then ore_mid else ore_light
  let c1 := st.1.set x y (withAlpha color 255)
  let st1 : Canvas × RNG :=
    if x + 1 < 16 then
      let q := randfloat pick.2
      (if q.1 < 0.35 then c1.set (x + 1) y (withAlpha ore_light 255) else c1, q.2)
    else (c1, pick.2)
  if y + 1 < 16 then
    let w := randfloat st1.2
    (if w.1 < 0.30 then st1.1.set x (y + 1) (withAlpha ore_dark 255) else st1.1, w.2)
  else st1

/-- One cluster of `add_ore_speckles`: anchor in `[1,14] x [1,14]`, one
of the five shapes chosen uniformly, then the per-offset body. -/
def speckle_cluster (ore_dark ore_mid ore_light : Color) (st : Canvas × RNG) : Canvas × RNG :=
  let a := randint st.2 1 14
  let c := randint a.2 1 14
  let sh := choice c.2 speckle_shapes [(0, 0)]
  sh.1.foldl (speckle_offset_step ore_dark ore_mid ore_light a.1 c.1) (st.1, sh.2)

/-- Source `add_ore_speckles` (a negative `cluster_count` yields zero
iterations, exactly as Python `range`). -/
def add_ore_speckles (img : Canvas) (rng : RNG) (ore_dark ore_mid ore_light : Color)
    (cluster_count : Int) : Canvas × RNG :=
  (List.range cluster_count.toNat).foldl
    (fun st _ => speckle_cluster ore_dark ore_mid ore_light st) (img, rng)

/-- One step of the crack random walk: write the dark crack color when in
bounds (with a conditional highlight one to the right), then move by a
horizontal step from `[-1,0,1]` and a vertical step from `[0,1]`,
clamping both coordinates. -/
def crack_walk_step (st : (Int × Int) × Canvas × RNG) : (Int × Int) × Canvas × RNG :=
  let x := st.1.1
  let y := st.1.2
  let inner : Canvas × RNG :=
    if 0 ≤ x ∧ x < 16 ∧ 0 ≤ y ∧ y < 16 then
      let c1 := st.2.1.set x y (Pixel.mk 26 28 31 255)
      if x + 1 < 16 then
        let q := randfloat st.2.2
        (if q.1 < 0.25 then c1.set (x + 1) y (Pixel.mk 60 62 66 255) else c1, q.2)
      else (c1, st.2.2)
    else (st.2.1, st.2.2)
  let dx := choice inner.2 [(-1 : Int), 0, 1] 0
  let dy := choice dx.2 [(0 : Int), 1] 0
  ((clamp (x + dx.1) 0 15, clamp (y + dy.1) 0 15), inner.1, dy.2)

/-- One stroke of `add_cracks`: start in `[2,13] x [1,14]`, length in
`[5,10]`, then the biased walk. -/
def crack_stroke (st : Canvas × RNG) : Canvas × RNG :=
  let a := randint st.2 2 13
  let c := randint a.2 1 14
  let len := randint c.2 5 10
  let fin := (List.range len.1.toNat).foldl (fun s _ => crack_walk_step s) ((a.1, c.1), st.1, len.2)
  (fin.2.1, fin.2.2)

/-- Source `add_cracks` (a negative `count` yields zero iterations). -/
def add_cracks (img : Canvas) (rng : RNG) (count : Int) : Canvas × RNG :=
  (List.range count.toNat).foldl (fun st _ => crack_stroke st) (img, rng)

/-- Source `make_ore_texture`: stone base (variation 11, default fleck
rates), then cracks, then 22 ore speckle clusters, all on one stream. -/
def make_ore_texture (rng : RNG) (base ore_dark ore_mid ore_light : Color)
    (crack_count : Int) : Canvas :=
  let s := stone_base rng base 11 0.12 0.08
  let c := add_cracks s.1 s.2 crack_count
  (add_ore_speckles c.1 c.2 ore_dark ore_mid ore_light 22).1

/-- The pixel value written by `clay_deposit_texture` at `(x, y)`:
red gets stripe + noise + drift, green gets stripe + noise fdiv 2, blue
gets stripe + noise fdiv 3, alpha 255 (Python `//` is floor division). -/
def clay_pixel_value (row_base : Color) (stripe noise x y : Int) : Pixel :=
  Pixel.mk (clamp (row_base.r + stripe + noise + ((x + y) % 5 - 2)) 0 255)
    (clamp (row_base.g + stripe + Int.fdiv noise 2) 0 255)
    (clamp (row_base.b + stripe + Int.fdiv noise 3) 0 255)
    255

/-- The inner-loop body of `clay_deposit_texture`: one noise draw from
`[-5, 5]` per pixel, then the write. -/
def clay_pixel (row_base : Color) (stripe : Int) (st : Canvas × RNG) (x y : Int) : Canvas × RNG :=
  let n := randint st.2 (-5) 5
  (st.1.set x y (clay_pixel_value row_base stripe n.1 x y), n.2)

/-- One row of `clay_deposit_texture`: row base from a 35%-scaled blend
of the two base tones, stripe offset -7 on rows with `y mod 4` in
`(1, 2)` and +5 elsewhere. -/
def clay_row (st : Canvas × RNG) (y : Nat) : Canvas × RNG :=
  let t : ℚ := (y : ℚ) / 15
  let row_base := blend (Color.mk 152 144 134) (Color.mk 166 156 146) (t * 0.35)
  let stripe : Int := if y % 4 = 1 ∨ y % 4 = 2 then -7 else 5
  (List.range 16).foldl (fun st2 (x : Nat) => clay_pixel row_base stripe st2 (x : Int) (y : Int)) st

/-- Source `clay_deposit_texture`. -/
def clay_deposit_texture (rng : RNG) : Canvas :=
  ((List.range 16).foldl clay_row (canvasFill (Pixel.mk 0 0 0 255), rng)).1

/-- One step of building a cobblestone seam line: append the current
point, then move both coordinates by steps from `[-1,0,1]`, clamped. -/
def seam_build_step (st : (Int × Int) × List (Int × Int) × RNG) :
    (Int × Int) × List (Int × Int) × RNG :=
  let x := st.1.1
  let y := st.1.2
  let line := st.2.1 ++ [(x, y)]
  let dx := choice st.2.2 [(-1 : Int), 0, 1] 0
  let dy := choice dx.2 [(-1 : Int), 0, 1] 0
  ((clamp (x + dx.1) 0 15, clamp (y + dy.1) 0 15), line, dy.2)

/-- Build one seam line: start in `[1,14] x [0,15]`, length in `[10,18]`. -/
def seam_build (st : List (List (Int × Int)) × RNG) : List (List (Int × Int)) × RNG :=
  let a := randint st.2 1 14
  let c := randint a.2 0 15
  let steps := randint c.2 10 18
  let w := (List.range steps.1.toNat).foldl (fun s _ => seam_build_step s)
    ((a.1, c.1), ([] : List (Int × Int)), steps.2)
  (st.1 ++ [w.2.1], w.2.2)

/-- Draw one seam point: dark seam color, then a conditional lighter
highlight to the right and a conditional mid-tone below (the probability
draws only happen when the respective neighbor is in bounds). -/
def seam_draw_point (st : Canvas × RNG) (pt : Int × Int) : Canvas × RNG :=
  let c1 := st.1.set pt.1 pt.2 (Pixel.mk 47 51 49 255)
  let st1 : Canvas × RNG :=
    if pt.1 + 1 < 16 then
      let q := randfloat st.2
      (if q.1 < 0.4 then c1.set (pt.1 + 1) pt.2 (Pixel.mk 124 129 124 255) else c1, q.2)
    else (c1, st.2)
  if pt.2 + 1 < 16 then
    let w := randfloat st1.2
    (if w.1 < 0.3 then st1.1.set pt.1 (pt.2 + 1) (Pixel.mk 87 93 88 255) else st1.1, w.2)
  else st1

def moss_colors : List Color :=
  [Color.mk 65 102 55, Color.mk 78 121 64, Color.mk 92 136 74]

/-- One point of a moss patch: the bounds check short-circuits before the
probability draw; a stamped pixel gets one of three moss shades, with a
conditional darker moss pixel below. -/
def moss_point (st : Canvas × RNG) (pt : Int × Int) : Canvas × RNG :=
  if 0 ≤ pt.1 ∧ pt.1 < 16 ∧ 0 ≤ pt.2 ∧ pt.2 < 16 then
    let p := randfloat st.2
    if p.1 < 0.75 then
      let mc := choice p.2 moss_colors (Color.mk 65 102 55)
      let c1 := st.1.set pt.1 pt.2 (withAlpha mc.1 255)
      if pt.2 + 1 < 16 then
        let q := randfloat mc.2
        (if q.1 < 0.35 then c1.set pt.1 (pt.2 + 1) (Pixel.mk 49 81 43 255) else c1, q.2)
      else (c1, mc.2)
    else (st.1, p.2)
  else st

/-- One moss patch: a plus-shaped set of five offsets around a random
interior center. -/
def moss_patch (st : Canvas × RNG) : Canvas × RNG :=
  let a := randint st.2 1 14
  let c := randint a.2 1 14
  let pts : List (Int × Int) :=
    [(a.1, c.1), (a.1 + 1, c.1), (a.1, c.1 + 1), (a.1 - 1, c.1), (a.1, c.1 - 1)]
  pts.foldl moss_point (st.1, c.2)

/-- Source `mossy_rubble_texture`: stone base, five seam lines built
first and then drawn, then seven moss patches. -/
def mossy_rubble_texture (rng : RNG) : Canvas :=
  let s := stone_base rng (Color.mk 104 110 106) 14 0.15 0.10
  let lines := (List.range 5).foldl (fun st _ => seam_build st)
    (([] : List (List (Int × Int))), s.2)
  let drawn := lines.1.foldl (fun st line => line.foldl seam_draw_point st) (s.1, lines.2)
  ((List.range 7).foldl (fun st _ => moss_patch st) drawn).1

/-- One pixel of a grass blade at step `i`: the `rng.random()` kink draw
comes before the bounds check in the source (`if rng.random() < 0.20 and
bx + 1 < SIZE`), so it is always consumed. -/
def grass_blade_pixel (x lean height : Int) (st : Canvas × RNG) (i : Nat) : Canvas × RNG :=
  let y : Int := 15 - (i : Int)
  let bx := clamp (x + ((i / 3 : Nat) : Int) * lean) 0 15
  let shade_t : ℚ := (i : ℚ) / ((max 1 (height - 1) : Int) : ℚ)
  let color := blend (Color.mk 58 112 44) (Color.mk 136 186 79) shade_t
  let c1 := st.1.set bx y (withAlpha color 255)
  let p := randfloat st.2
  if p.1 < 0.20 ∧ bx + 1 < 16 then
    (c1.set (bx + 1) y (withAlpha (blend (Color.mk 48 96 38) (Color.mk 118 170 73) shade_t) 255), p.2)
  else (c1, p.2)

/-- One grass blade: x in `[1,14]`, height in `[6,12]`, lean in
`[-1,0,1]`, drawn upward from the bottom row. -/
def grass_blade (st : Canvas × RNG) : Canvas × RNG :=
  let a := randint st.2 1 14
  let h := randint a.2 6 12
  let lean := choice h.2 [(-1 : Int), 0, 1] 0
  (List.range h.1.toNat).foldl (grass_blade_pixel a.1 lean.1 h.1) (st.1, lean.2)

/-- Source `tall_grass_texture`: transparent base, `randint(6, 8)`
blades. -/
def tall_grass_texture (rng : RNG) : Canvas :=
  let blades := randint rng 6 8
  ((List.range blades.1.toNat).foldl (fun st _ => grass_blade st)
    (canvasFill (Pixel.mk 0 0 0 0), blades.2)).1

/-- The stem anchor of `wildflower_texture`: `stem_x = randint(7, 8)`,
then `stem_top = randint(5, 7)` on the advanced stream. -/
def wildflower_center (rng : RNG) : Int × Int :=
  let sx := randint rng 7 8
  (sx.1, (randint sx.2 5 7).1)

/-- One stem pixel at row `y = 15 - k`: the kink draw happens only on
rows with `y mod 4 = 0` (Python `and` short-circuits), the x coordinate
is clamped before the write. -/
def stem_pixel (stem_x : Int) (st : Canvas × RNG) (k : Nat) : Canvas × RNG :=
  let y : Int := 15 - (k : Int)
  let xr : Int × RNG :=
    if y % 4 = 0 then
      let p := randfloat st.2
      (if p.1 < 0.4 then stem_x + 1 else stem_x, p.2)
    else (stem_x, st.2)
  let color := blend (Color.mk 44 104 41) (Color.mk 98 156 72) (((15 : ℚ) - (y : ℚ)) / 10)
  (st.1.set (clamp xr.1 0 15) y (withAlpha color 255), xr.2)

/-- One leaf point: bounds-guarded write, then a conditional highlight
one to the right (bounds checked before the draw). -/
def leaf_point (st : Canvas × RNG) (pt : Int × Int) : Canvas × RNG :=
  if 0 ≤ pt.1 ∧ pt.1 < 16 ∧ 0 ≤ pt.2 ∧ pt.2 < 16 then
    let c1 := st.1.set pt.1 pt.2 (Pixel.mk 76 142 63 255)
    if pt.1 + 1 < 16 then
      let p := randfloat st.2
      (if p.1 < 0.5 then c1.set (pt.1 + 1) pt.2 (Pixel.mk 64 128 56 255) else c1, p.2)
    else (c1, st.2)
  else st

def petal_palette : List Color :=
  [Color.mk 212 70 70, Color.mk 241 206 82, Color.mk 226 125 171]

def petal_offsets : List (Int × Int) :=
  [(-1, 0), (1, 0), (0, -1), (0, 1), (-1, -1), (1, -1)]

/-- One petal write: bounds-guarded, the palette cycled by offset index
modulo 3. -/
def petal_point (cx cy : Int) (c : Canvas) (ip : Nat × (Int × Int)) : Canvas :=
  let x := cx + ip.2.1
  let y := cy + ip.2.2
  if 0 ≤ x ∧ x < 16 ∧ 0 ≤ y ∧ y < 16 then
    c.set x y (withAlpha (petal_palette.getD (ip.1 % 3) (Color.mk 212 70 70)) 255)
  else c

/-- Source `wildflower_texture`: transparent base, stem from the bottom
row up to `stem_top`, two leaf points, the unguarded flower-center write
at `(stem_x, stem_top)`, then six guarded petal writes. -/
def wildflower_texture (rng : RNG) : Canvas :=
  let sx := randint rng 7 8
  let stTop := randint sx.2 5 7
  let stem := (List.range (16 - stTop.1.toNat)).foldl (stem_pixel sx.1)
    (canvasFill (Pixel.mk 0 0 0 0), stTop.2)
  let leaves := ([(sx.1 - 1, (11 : Int)), (sx.1 + 1, 9)] : List (Int × Int)).foldl leaf_point stem
  let centered := leaves.1.set sx.1 stTop.1 (Pixel.mk 242 215 106 255)
  petal_offsets.enum.foldl (petal_point sx.1 stTop.1) centered

/-! ### Specification-side formulations, written from the spec's and the
claims' wording, to be compared with the source-side definitions above -/

/-- Spec wording for the ore speckle color tier: 20% dark, next 60% mid,
remaining 20% light, from a single uniform draw compared against 0.20
and 0.80. -/
def tier_color (pick : ℚ) (ore_dark ore_mid ore_light : Color) : Color :=
  if pick < 0.20 then ore_dark else if pick < 0.80 then ore_mid else ore_light

/-- Spec wording for the per-offset ore speckle body: pick a tier color
from one draw, write it, then with independent probability checks
conditionally add a light pixel to the right and a dark pixel below,
writing only when the neighbor is in bounds. -/
def speckle_offset_claimed (ore_dark ore_mid ore_light : Color) (cx cy : Int)
    (st : Canvas × RNG) (off : Int × Int) : Canvas × RNG :=
  let x := clamp (cx + off.1) 0 15
  let y := clamp (cy + off.2) 0 15
  let pick := randfloat st.2
  let afterMain := st.1.set x y (withAlpha (tier_color pick.1 ore_dark ore_mid ore_light) 255)
  let afterRight : Canvas × RNG :=
    if x + 1 < 16 then
      let q := randfloat pick.2
      (if q.1 < 0.35 then afterMain.set (x + 1) y (withAlpha ore_light 255) else afterMain, q.2)
    else (afterMain, pick.2)
  if y + 1 < 16 then
    let w := randfloat afterRight.2
    (if w.1 < 0.30 then afterRight.1.set x (y + 1) (withAlpha ore_dark 255) else afterRight.1, w.2)
  else afterRight

/-- Claim wording for the clay pixel: row base plus stripe plus noise
plus a drift term applied to each of the three channels with a
per-channel divisor. -/
def clay_pixel_claimed (row_base : Color) (stripe noise drift d1 d2 d3 : Int) : Pixel :=
  Pixel.mk (clamp (row_base.r + stripe + noise + drift / d1) 0 255)
    (clamp (row_base.g + stripe + noise + drift / d2) 0 255)
    (clamp (row_base.b + stripe + noise + drift / d3) 0 255)
    255

/-- Claim wording for the dark fleck: three separate draws from
`[8, 20]`, one per channel in R, G, B order, each channel darkened by
its own draw. -/
def fleck_dark_claimed (c : Color) (rng : RNG) : Color × RNG :=
  let a1 := randint rng 8 20
  let a2 := randint a1.2 8 20
  let a3 := randint a2.2 8 20
  (Color.mk (clamp (c.r - a1.1) 0 255) (clamp (c.g - a2.1) 0 255)
    (clamp (c.b - a3.1) 0 255), a3.2)

/-- Claim wording for the light fleck: three separate draws from
`[8, 20]`, one per channel in R, G, B order, each channel lightened by
its own draw. -/
def fleck_light_claimed (c : Color) (rng : RNG) : Color × RNG :=
  let a1 := randint rng 8 20
  let a2 := randint a1.2 8 20
  let a3 := randint a2.2 8 20
  (Color.mk (clamp (c.r + a1.1) 0 255) (clamp (c.g + a2.1) 0 255)
    (clamp (c.b + a3.1) 0 255), a3.2)

/-! ### Invariant predicates and basic lemmas -/

/-- Every channel of the pixel lies in `[0, 255]`. -/
def PixOk (p : Pixel) : Prop :=
  0 ≤ p.pr ∧ p.pr ≤ 255 ∧ 0 ≤ p.pg ∧ p.pg ≤ 255 ∧
    0 ≤ p.pb ∧ p.pb ≤ 255 ∧ 0 ≤ p.pa ∧ p.pa ≤ 255

instance (p : Pixel) : Decidable (PixOk p) := by
  unfold PixOk
  infer_instance

/-- Every channel of the color lies in `[0, 255]`. -/
def ColorOk (c : Color) : Prop :=
  0 ≤ c.r ∧ c.r ≤ 255 ∧ 0 ≤ c.g ∧ c.g ≤ 255 ∧ 0 ≤ c.b ∧ c.b ≤ 255

instance (c : Color) : Decidable (ColorOk c) := by
  unfold ColorOk
  infer_instance

/-- Every pixel currently stored in the canvas is channel-bounded. -/
def InRange (c : Canvas) : Prop :=
  ∀ i j : Fin 16, PixOk (c.pix i j)

/-- No write has ever targeted a coordinate outside the 16x16 grid. -/
def NoOob (c : Canvas) : Prop :=
  c.oob = false

/-- The point lies inside the 16x16 grid. -/
def PtOk (pt : Int × Int) : Prop :=
  0 ≤ pt.1 ∧ pt.1 < 16 ∧ 0 ≤ pt.2 ∧ pt.2 < 16

lemma foldl_inv {α σ : Type} (P : σ → Prop) (f : σ → α → σ) :
    ∀ (l : List α) (s : σ), P s → (∀ s2 a, a ∈ l → P s2 → P (f s2 a)) → P (l.foldl f s) := by
  intro l
  induction l with
  | nil => intro s hs _; exact hs
  | cons a t ih =>
    intro s hs hf
    exact ih _ (hf s a (List.mem_cons_self _ _) hs)
      (fun s2 e he => hf s2 e (List.mem_cons_of_mem _ he))

lemma clamp_lower (v lo hi : Int) : lo ≤ clamp v lo hi :=
  le_max_left _ _

lemma clamp_upper (v lo hi : Int) (h : lo ≤ hi) : clamp v lo hi ≤ hi :=
  max_le h (min_le_left _ _)

lemma clamp_eq_self (v lo hi : Int) (h1 : lo ≤ v) (h2 : v ≤ hi) : clamp v lo hi = v := by
  unfold clamp
  rw [min_eq_right h2, max_eq_right h1]

lemma randint_bounds (r : RNG) (a b : Int) (h : a ≤ b) :
    a ≤ (randint r a b).1 ∧ (randint r a b).1 ≤ b := by
  unfold randint RNG.next
  have hne : b - a + 1 ≠ 0 := by omega
  have hpos : (0 : Int) < b - a + 1 := by omega
  have h1 := Int.emod_nonneg ((r.stream r.pos : Nat) : Int) hne
  have h2 := Int.emod_lt_of_pos ((r.stream r.pos : Nat) : Int) hpos
  dsimp only
  omega

lemma set_pix_inrange (c : Canvas) (x y : Int) (p : Pixel)
    (h : InRange c) (hp : PixOk p) : InRange (c.set x y p) := by
  unfold Canvas.set
  split
  · intro i j
    dsimp only
    split
    · exact hp
    · exact h i j
  · exact h

lemma set_oob_of_bounds (c : Canvas) (x y : Int) (p : Pixel)
    (hx0 : 0 ≤ x) (hx1 : x < 16) (hy0 : 0 ≤ y) (hy1 : y < 16) :
    (c.set x y p).oob = c.oob := by
  unfold Canvas.set
  rw [if_pos ⟨hx0, hx1, hy0, hy1⟩]

lemma jitter_colorOk (c : Color) (a : Int) (r : RNG) : ColorOk (jitter c a r).1 := by
  unfold jitter ColorOk
  refine ⟨clamp_lower _ _ _, clamp_upper _ _ _ (by omega), clamp_lower _ _ _,
    clamp_upper _ _ _ (by omega), clamp_lower _ _ _, clamp_upper _ _ _ (by omega)⟩

lemma fleck_dark_colorOk (c : Color) (r : RNG) : ColorOk (fleck_dark c r).1 := by
  unfold fleck_dark ColorOk
  refine ⟨clamp_lower _ _ _, clamp_upper _ _ _ (by omega), clamp_lower _ _ _,
    clamp_upper _ _ _ (by omega), clamp_lower _ _ _, clamp_upper _ _ _ (by omega)⟩

lemma fleck_light_colorOk (c : Color) (r : RNG) : ColorOk (fleck_light c r).1 := by
  unfold fleck_light ColorOk
  refine ⟨clamp_lower _ _ _, clamp_upper _ _ _ (by omega), clamp_lower _ _ _,
    clamp_upper _ _ _ (by omega), clamp_lower _ _ _, clamp_upper _ _ _ (by omega)⟩

lemma blend_colorOk (c1 c2 : Color) (t : ℚ) : ColorOk (blend c1 c2 t) := by
  unfold blend ColorOk
  refine ⟨clamp_lower _ _ _, clamp_upper _ _ _ (by omega), clamp_lower _ _ _,
    clamp_upper _ _ _ (by omega), clamp_lower _ _ _, clamp_upper _ _ _ (by omega)⟩

lemma withAlpha_pixOk (c : Color) (h : ColorOk c) : PixOk (withAlpha c 255) := by
  unfold withAlpha PixOk
  unfold ColorOk at h
  dsimp only
  refine ⟨h.1, h.2.1, h.2.2.1, h.2.2.2.1, h.2.2.2.2.1, h.2.2.2.2.2, by omega, by omega⟩

lemma moss_choice_colorOk (r : RNG) (d : Color) :
    ColorOk (choice r moss_colors d).1 := by
  unfold choice RNG.next moss_colors
  dsimp only
  simp only [List.length_cons, List.length_nil]
  have h3 : r.stream r.pos % 3 = 0 ∨ r.stream r.pos % 3 = 1 ∨ r.stream r.pos % 3 = 2 := by omega
  rcases h3 with h | h | h <;> rw [h] <;>
    simp only [List.getD_cons_zero, List.getD_cons_succ] <;> decide

lemma petal_choice_colorOk (n : Nat) (d : Color) :
    ColorOk (petal_palette.getD (n % 3) d) := by
  unfold petal_palette
  have h3 : n % 3 = 0 ∨ n % 3 = 1 ∨ n % 3 = 2 := by omega
  rcases h3 with h | h | h <;> rw [h] <;>
    simp only [List.getD_cons_zero, List.getD_cons_succ] <;> decide

/-! ### Channel-bound preservation, write site by write site -/

lemma canvasFill_inrange (p : Pixel) (hp : PixOk p) : InRange (canvasFill p) :=
  fun _ _ => hp

lemma canvasFill_nooob (p : Pixel) : NoOob (canvasFill p) :=
  rfl

lemma noOob_set {c : Canvas} {x y : Int} {p : Pixel} (h : NoOob c)
    (hx0 : 0 ≤ x) (hx1 : x < 16) (hy0 : 0 ≤ y) (hy1 : y < 16) : NoOob (c.set x y p) := by
  unfold NoOob
  rw [set_oob_of_bounds c x y p hx0 hx1 hy0 hy1]
  exact h

lemma clamp15_bounds (v : Int) : 0 ≤ clamp v 0 15 ∧ clamp v 0 15 < 16 := by
  have h1 := clamp_lower v 0 15
  have h2 := clamp_upper v 0 15 (by omega)
  omega

lemma clay_pixel_value_pixOk (row_base : Color) (stripe noise x y : Int) :
    PixOk (clay_pixel_value row_base stripe noise x y) := by
  unfold clay_pixel_value PixOk
  dsimp only
  refine ⟨clamp_lower _ _ _, clamp_upper _ _ _ (by omega), clamp_lower _ _ _,
    clamp_upper _ _ _ (by omega), clamp_lower _ _ _, clamp_upper _ _ _ (by omega),
    by omega, by omega⟩

lemma stone_pixel_inrange (base : Color) (variation : Int) (dr lr : ℚ)
    (st : Canvas × RNG) (x y : Int) (h : InRange st.1) :
    InRange (stone_pixel base variation dr lr st x y).1 := by
  unfold stone_pixel
  dsimp only
  split_ifs
  · exact set_pix_inrange _ _ _ _ h (withAlpha_pixOk _ (fleck_dark_colorOk _ _))
  · exact set_pix_inrange _ _ _ _ h (withAlpha_pixOk _ (fleck_light_colorOk _ _))
  · exact set_pix_inrange _ _ _ _ h (withAlpha_pixOk _ (jitter_colorOk _ _ _))

lemma stone_base_inrange (rng : RNG) (base : Color) (variation : Int) (dr lr : ℚ) :
    InRange (stone_base rng base variation dr lr).1 := by
  unfold stone_base
  apply foldl_inv (fun st : Canvas × RNG => InRange st.1)
  · exact canvasFill_inrange _ (by decide)
  · intro s2 a _ hs
    apply foldl_inv (fun st : Canvas × RNG => InRange st.1)
    · exact hs
    · intro s3 e _ hs3
      exact stone_pixel_inrange _ _ _ _ _ _ _ hs3

lemma speckle_offset_step_inrange (d m l : Color) (cx cy : Int)
    (st : Canvas × RNG) (off : Int × Int)
    (hd : ColorOk d) (hm : ColorOk m) (hl : ColorOk l) (h : InRange st.1) :
    InRange (speckle_offset_step d m l cx cy st off).1 := by
  unfold speckle_offset_step
  dsimp only
  split_ifs <;>
    repeat' first
      | exact h
      | exact hd
      | exact hm
      | exact hl
      | apply set_pix_inrange
      | apply withAlpha_pixOk

lemma speckle_cluster_inrange (d m l : Color) (st : Canvas × RNG)
    (hd : ColorOk d) (hm : ColorOk m) (hl : ColorOk l) (h : InRange st.1) :
    InRange (speckle_cluster d m l st).1 := by
  unfold speckle_cluster
  dsimp only
  apply foldl_inv (fun st2 : Canvas × RNG => InRange st2.1)
  · exact h
  · intro s2 a _ hs
    exact speckle_offset_step_inrange _ _ _ _ _ _ _ hd hm hl hs

lemma add_ore_speckles_inrange (img : Canvas) (rng : RNG) (d m l : Color) (n : Int)
    (hd : ColorOk d) (hm : ColorOk m) (hl : ColorOk l) (h : InRange img) :
    InRange (add_ore_speckles img rng d m l n).1 := by
  unfold add_ore_speckles
  apply foldl_inv (fun st : Canvas × RNG => InRange st.1)
  · exact h
  · intro s2 a _ hs
    exact speckle_cluster_inrange _ _ _ _ hd hm hl hs

lemma crack_walk_step_inrange (st : (Int × Int) × Canvas × RNG)
    (h : InRange st.2.1) : InRange (crack_walk_step st).2.1 := by
  unfold crack_walk_step
  dsimp only
  split_ifs <;>
    repeat' first
      | exact h
      | apply set_pix_inrange
      | decide

lemma crack_stroke_inrange (st : Canvas × RNG) (h : InRange st.1) :
    InRange (crack_stroke st).1 := by
  unfold crack_stroke
  dsimp only
  have hfold : ∀ fin2 : (Int × Int) × Canvas × RNG, InRange fin2.2.1 →
      ∀ len : Nat, InRange ((List.range len).foldl (fun s _ => crack_walk_step s) fin2).2.1 := by
    intro fin2 h2 len
    apply foldl_inv (fun s : (Int × Int) × Canvas × RNG => InRange s.2.1)
    · exact h2
    · intro s2 a _ hs
      exact crack_walk_step_inrange _ hs
  exact hfold _ h _

lemma add_cracks_inrange (img : Canvas) (rng : RNG) (n : Int) (h : InRange img) :
    InRange (add_cracks img rng n).1 := by
  unfold add_cracks
  apply foldl_inv (fun st : Canvas × RNG => InRange st.1)
  · exact h
  · intro s2 a _ hs
    exact crack_stroke_inrange _ hs

lemma make_ore_texture_inrange (rng : RNG) (base d m l : Color) (n : Int)
    (hd : ColorOk d) (hm : ColorOk m) (hl : ColorOk l) :
    InRange (make_ore_texture rng base d m l n) := by
  unfold make_ore_texture
  dsimp only
  exact add_ore_speckles_inrange _ _ _ _ _ _ hd hm hl
    (add_cracks_inrange _ _ _ (stone_base_inrange _ _ _ _ _))

lemma clay_pixel_inrange (row_base : Color) (stripe : Int) (st : Canvas × RNG) (x y : Int)
    (h : InRange st.1) : InRange (clay_pixel row_base stripe st x y).1 := by
  unfold clay_pixel
  dsimp only
  exact set_pix_inrange _ _ _ _ h (clay_pixel_value_pixOk _ _ _ _ _)

lemma clay_row_inrange (st : Canvas × RNG) (y : Nat) (h : InRange st.1) :
    InRange (clay_row st y).1 := by
  unfold clay_row
  dsimp only
  apply foldl_inv (fun st2 : Canvas × RNG => InRange st2.1)
  · exact h
  · intro s2 a _ hs
    exact clay_pixel_inrange _ _ _ _ _ hs

lemma clay_deposit_texture_inrange (rng : RNG) : InRange (clay_deposit_texture rng) := by
  unfold clay_deposit_texture
  apply foldl_inv (fun st : Canvas × RNG => InRange st.1)
  · exact canvasFill_inrange _ (by decide)
  · intro s2 a _ hs
    exact clay_row_inrange _ _ hs

lemma seam_draw_point_inrange (st : Canvas × RNG) (pt : Int × Int) (h : InRange st.1) :
    InRange (seam_draw_point st pt).1 := by
  unfold seam_draw_point
  dsimp only
  split_ifs <;>
    repeat' first
      | exact h
      | apply set_pix_inrange
      | decide

lemma moss_point_inrange (st : Canvas × RNG) (pt : Int × Int) (h : InRange st.1) :
    InRange (moss_point st pt).1 := by
  unfold moss_point
  dsimp only
  split_ifs <;>
    repeat' first
      | exact h
      | apply set_pix_inrange
      | apply withAlpha_pixOk
      | apply moss_choice_colorOk
      | decide

lemma moss_patch_inrange (st : Canvas × RNG) (h : InRange st.1) :
    InRange (moss_patch st).1 := by
  unfold moss_patch
  dsimp only
  apply foldl_inv (fun st2 : Canvas × RNG => InRange st2.1)
  · exact h
  · intro s2 a _ hs
    exact moss_point_inrange _ _ hs

lemma mossy_rubble_texture_inrange (rng : RNG) : InRange (mossy_rubble_texture rng) := by
  unfold mossy_rubble_texture
  dsimp only
  have h0 := stone_base_inrange rng (Color.mk 104 110 106) 14 0.15 0.10
  generalize hg : stone_base rng (Color.mk 104 110 106) 14 0.15 0.10 = s0 at h0 ⊢
  generalize (List.range 5).foldl (fun st _ => seam_build st)
    (([] : List (List (Int × Int))), s0.2) = ls
  apply foldl_inv (fun st : Canvas × RNG => InRange st.1)
  · apply foldl_inv (fun st : Canvas × RNG => InRange st.1)
    · exact h0
    · intro s2 line _ hs
      apply foldl_inv (fun st : Canvas × RNG => InRange st.1)
      · exact hs
      · intro s3 pt _ hs3
        exact seam_draw_point_inrange _ _ hs3
  · intro s2 a _ hs
    exact moss_patch_inrange _ hs

lemma grass_blade_pixel_inrange (x lean height : Int) (st : Canvas × RNG) (i : Nat)
    (h : InRange st.1) : InRange (grass_blade_pixel x lean height st i).1 := by
  unfold grass_blade_pixel
  dsimp only
  split_ifs <;>
    repeat' first
      | exact h
      | apply set_pix_inrange
      | apply withAlpha_pixOk
      | apply blend_colorOk

lemma grass_blade_inrange (st : Canvas × RNG) (h : InRange st.1) :
    InRange (grass_blade st).1 := by
  unfold grass_blade
  dsimp only
  apply foldl_inv (fun st2 : Canvas × RNG => InRange st2.1)
  · exact h
  · intro s2 a _ hs
    exact grass_blade_pixel_inrange _ _ _ _ _ hs

lemma tall_grass_texture_inrange (rng : RNG) : InRange (tall_grass_texture rng) := by
  unfold tall_grass_texture
  dsimp only
  apply foldl_inv (fun st : Canvas × RNG => InRange st.1)
  · exact canvasFill_inrange _ (by decide)
  · intro s2 a _ hs
    exact grass_blade_inrange _ hs

lemma stem_pixel_inrange (stem_x : Int) (st : Canvas × RNG) (k : Nat)
    (h : InRange st.1) : InRange (stem_pixel stem_x st k).1 := by
  unfold stem_pixel
  dsimp only
  split_ifs <;>
    repeat' first
      | exact h
      | apply set_pix_inrange
      | apply withAlpha_pixOk
      | apply blend_colorOk

lemma leaf_point_inrange (st : Canvas × RNG) (pt : Int × Int) (h : InRange st.1) :
    InRange (leaf_point st pt).1 := by
  unfold leaf_point
  dsimp only
  split_ifs <;>
    repeat' first
      | exact h
      | apply set_pix_inrange
      | decide

lemma petal_point_inrange (cx cy : Int) (c : Canvas) (ip : Nat × (Int × Int))
    (h : InRange c) : InRange (petal_point cx cy c ip) := by
  unfold petal_point
  dsimp only
  split_ifs <;>
    repeat' first
      | exact h
      | apply set_pix_inrange
      | apply withAlpha_pixOk
      | apply petal_choice_colorOk

lemma wildflower_texture_inrange (rng : RNG) : InRange (wildflower_texture rng) := by
  unfold wildflower_texture
  dsimp only
  apply foldl_inv (fun c : Canvas => InRange c)
  · apply set_pix_inrange
    · apply foldl_inv (fun st : Canvas × RNG => InRange st.1)
      · apply foldl_inv (fun st : Canvas × RNG => InRange st.1)
        · exact canvasFill_inrange _ (by decide)
        · intro s2 a _ hs
          exact stem_pixel_inrange _ _ _ hs
      · intro s2 a _ hs
        exact leaf_point_inrange _ _ hs
    · decide
  · intro s2 a _ hs
    exact petal_point_inrange _ _ _ _ hs

/-! ### In-bounds writes: the sticky out-of-bounds flag is never set -/

lemma stone_pixel_nooob (base : Color) (variation : Int) (dr lr : ℚ)
    (st : Canvas × RNG) (x y : Int) (h : NoOob st.1)
    (hx0 : 0 ≤ x) (hx1 : x < 16) (hy0 : 0 ≤ y) (hy1 : y < 16) :
    NoOob (stone_pixel base variation dr lr st x y).1 := by
  unfold stone_pixel
  dsimp only
  split_ifs <;> exact noOob_set h hx0 hx1 hy0 hy1

lemma stone_base_nooob (rng : RNG) (base : Color) (variation : Int) (dr lr : ℚ) :
    NoOob (stone_base rng base variation dr lr).1 := by
  unfold stone_base
  apply foldl_inv (fun st : Canvas × RNG => NoOob st.1)
  · exact canvasFill_nooob _
  · intro s2 y hy hs
    have hy16 : y < 16 := List.mem_range.mp hy
    apply foldl_inv (fun st : Canvas × RNG => NoOob st.1)
    · exact hs
    · intro s3 x hx hs3
      have hx16 : x < 16 := List.mem_range.mp hx
      exact stone_pixel_nooob _ _ _ _ _ _ _ hs3 (by omega) (by omega) (by omega) (by omega)

lemma speckle_offset_step_nooob (d m l : Color) (cx cy : Int)
    (st : Canvas × RNG) (off : Int × Int) (h : NoOob st.1) :
    NoOob (speckle_offset_step d m l cx cy st off).1 := by
  unfold speckle_offset_step
  dsimp only
  have hx := clamp15_bounds (cx + off.1)
  have hy := clamp15_bounds (cy + off.2)
  split_ifs <;>
    repeat' first
      | exact h
      | apply noOob_set
      | omega

lemma speckle_cluster_nooob (d m l : Color) (st : Canvas × RNG) (h : NoOob st.1) :
    NoOob (speckle_cluster d m l st).1 := by
  unfold speckle_cluster
  dsimp only
  apply foldl_inv (fun st2 : Canvas × RNG => NoOob st2.1)
  · exact h
  · intro s2 a _ hs
    exact speckle_offset_step_nooob _ _ _ _ _ _ _ hs

lemma add_ore_speckles_nooob (img : Canvas) (rng : RNG) (d m l : Color) (n : Int)
    (h : NoOob img) : NoOob (add_ore_speckles img rng d m l n).1 := by
  unfold add_ore_speckles
  apply foldl_inv (fun st : Canvas × RNG => NoOob st.1)
  · exact h
  · intro s2 a _ hs
    exact speckle_cluster_nooob _ _ _ _ hs

lemma crack_walk_step_nooob (st : (Int × Int) × Canvas × RNG)
    (h : NoOob st.2.1) : NoOob (crack_walk_step st).2.1 := by
  unfold crack_walk_step
  dsimp only
  split_ifs <;>
    repeat' first
      | exact h
      | apply noOob_set
      | omega

lemma crack_stroke_nooob (st : Canvas × RNG) (h : NoOob st.1) :
    NoOob (crack_stroke st).1 := by
  unfold crack_stroke
  dsimp only
  have hfold : ∀ fin2 : (Int × Int) × Canvas × RNG, NoOob fin2.2.1 →
      ∀ len : Nat, NoOob ((List.range len).foldl (fun s _ => crack_walk_step s) fin2).2.1 := by
    intro fin2 h2 len
    apply foldl_inv (fun s : (Int × Int) × Canvas × RNG => NoOob s.2.1)
    · exact h2
    · intro s2 a _ hs
      exact crack_walk_step_nooob _ hs
  exact hfold _ h _

lemma add_cracks_nooob (img : Canvas) (rng : RNG) (n : Int) (h : NoOob img) :
    NoOob (add_cracks img rng n).1 := by
  unfold add_cracks
  apply foldl_inv (fun st : Canvas × RNG => NoOob st.1)
  · exact h
  · intro s2 a _ hs
    exact crack_stroke_nooob _ hs

lemma make_ore_texture_nooob (rng : RNG) (base d m l : Color) (n : Int) :
    NoOob (make_ore_texture rng base d m l n) := by
  unfold make_ore_texture
  dsimp only
  exact add_ore_speckles_nooob _ _ _ _ _ _
    (add_cracks_nooob _ _ _ (stone_base_nooob _ _ _ _ _))

lemma clay_pixel_nooob (row_base : Color) (stripe : Int) (st : Canvas × RNG) (x y : Int)
    (h : NoOob st.1) (hx0 : 0 ≤ x) (hx1 : x < 16) (hy0 : 0 ≤ y) (hy1 : y < 16) :
    NoOob (clay_pixel row_base stripe st x y).1 := by
  unfold clay_pixel
  dsimp only
  exact noOob_set h hx0 hx1 hy0 hy1

lemma clay_row_nooob (st : Canvas × RNG) (y : Nat) (hy : y < 16) (h : NoOob st.1) :
    NoOob (clay_row st y).1 := by
  unfold clay_row
  dsimp only
  apply foldl_inv (fun st2 : Canvas × RNG => NoOob st2.1)
  · exact h
  · intro s2 x hx hs
    have hx16 : x < 16 := List.mem_range.mp hx
    exact clay_pixel_nooob _ _ _ _ _ hs (by omega) (by omega) (by omega) (by omega)

lemma clay_deposit_texture_nooob (rng : RNG) : NoOob (clay_deposit_texture rng) := by
  unfold clay_deposit_texture
  apply foldl_inv (fun st : Canvas × RNG => NoOob st.1)
  · exact canvasFill_nooob _
  · intro s2 y hy hs
    exact clay_row_nooob _ _ (List.mem_range.mp hy) hs

lemma seam_build_step_pts (st : (Int × Int) × List (Int × Int) × RNG)
    (h : PtOk st.1 ∧ ∀ pt ∈ st.2.1, PtOk pt) :
    PtOk (seam_build_step st).1 ∧ ∀ pt ∈ (seam_build_step st).2.1, PtOk pt := by
  unfold seam_build_step
  dsimp only
  constructor
  · have h1 := clamp15_bounds (st.1.1 + (choice st.2.2 [(-1 : Int), 0, 1] 0).1)
    have h2 := clamp15_bounds (st.1.2 +
      (choice (choice st.2.2 [(-1 : Int), 0, 1] 0).2 [(-1 : Int), 0, 1] 0).1)
    exact ⟨h1.1, h1.2, h2.1, h2.2⟩
  · intro pt hpt
    rcases List.mem_append.mp hpt with h1 | h2
    · exact h.2 pt h1
    · have he : pt = (st.1.1, st.1.2) := List.mem_singleton.mp h2
      subst he
      exact h.1

lemma seam_build_pts (st : List (List (Int × Int)) × RNG)
    (h : ∀ line ∈ st.1, ∀ pt ∈ line, PtOk pt) :
    ∀ line ∈ (seam_build st).1, ∀ pt ∈ line, PtOk pt := by
  unfold seam_build
  dsimp only
  intro line hline
  rcases List.mem_append.mp hline with h1 | h2
  · exact h line h1
  · have he := List.mem_singleton.mp h2
    subst he
    have ha := randint_bounds st.2 1 14 (by omega)
    have hb := randint_bounds (randint st.2 1 14).2 0 15 (by omega)
    have hinv := foldl_inv
      (fun w : (Int × Int) × List (Int × Int) × RNG => PtOk w.1 ∧ ∀ pt ∈ w.2.1, PtOk pt)
      (fun s _ => seam_build_step s)
      (List.range (randint (randint (randint st.2 1 14).2 0 15).2 10 18).1.toNat)
      (((randint st.2 1 14).1, (randint (randint st.2 1 14).2 0 15).1), ([] : List (Int × Int)),
        (randint (randint (randint st.2 1 14).2 0 15).2 10 18).2)
      ⟨⟨by dsimp only; omega, by dsimp only; omega, by dsimp only; omega, by dsimp only; omega⟩,
        fun pt hpt => absurd hpt (List.not_mem_nil _)⟩
      (fun s2 a _ hs => seam_build_step_pts s2 hs)
    exact hinv.2

lemma seam_draw_point_nooob (st : Canvas × RNG) (pt : Int × Int)
    (hpt : PtOk pt) (h : NoOob st.1) : NoOob (seam_draw_point st pt).1 := by
  unfold seam_draw_point
  dsimp only
  obtain ⟨h1, h2, h3, h4⟩ := hpt
  split_ifs <;>
    repeat' first
      | exact h
      | apply noOob_set
      | omega

lemma moss_point_nooob (st : Canvas × RNG) (pt : Int × Int) (h : NoOob st.1) :
    NoOob (moss_point st pt).1 := by
  unfold moss_point
  dsimp only
  split_ifs <;>
    repeat' first
      | exact h
      | apply noOob_set
      | omega

lemma moss_patch_nooob (st : Canvas × RNG) (h : NoOob st.1) :
    NoOob (moss_patch st).1 := by
  unfold moss_patch
  dsimp only
  apply foldl_inv (fun st2 : Canvas × RNG => NoOob st2.1)
  · exact h
  · intro s2 a _ hs
    exact moss_point_nooob _ _ hs

lemma mossy_rubble_texture_nooob (rng : RNG) : NoOob (mossy_rubble_texture rng) := by
  unfold mossy_rubble_texture
  dsimp only
  have h0 := stone_base_nooob rng (Color.mk 104 110 106) 14 0.15 0.10
  generalize hg : stone_base rng (Color.mk 104 110 106) 14 0.15 0.10 = s0 at h0 ⊢
  have hpts := foldl_inv
    (fun st : List (List (Int × Int)) × RNG => ∀ line ∈ st.1, ∀ pt ∈ line, PtOk pt)
    (fun st _ => seam_build st) (List.range 5) (([] : List (List (Int × Int))), s0.2)
    (fun line hl => absurd hl (List.not_mem_nil _))
    (fun s2 a _ hs => seam_build_pts s2 hs)
  generalize hls : (List.range 5).foldl (fun st _ => seam_build st)
    (([] : List (List (Int × Int))), s0.2) = ls at hpts ⊢
  apply foldl_inv (fun st : Canvas × RNG => NoOob st.1)
  · apply foldl_inv (fun st : Canvas × RNG => NoOob st.1)
    · exact h0
    · intro s2 line hline hs
      apply foldl_inv (fun st : Canvas × RNG => NoOob st.1)
      · exact hs
      · intro s3 pt hpt hs3
        exact seam_draw_point_nooob _ _ (hpts line hline pt hpt) hs3
  · intro s2 a _ hs
    exact moss_patch_nooob _ hs

lemma grass_blade_pixel_nooob (x lean height : Int) (st : Canvas × RNG) (i : Nat)
    (hi : i ≤ 15) (h : NoOob st.1) : NoOob (grass_blade_pixel x lean height st i).1 := by
  unfold grass_blade_pixel
  dsimp only
  have hbx := clamp15_bounds (x + ((i / 3 : Nat) : Int) * lean)
  split_ifs with hc
  · obtain ⟨hq, hb⟩ := hc
    refine noOob_set (noOob_set h ?_ ?_ ?_ ?_) ?_ ?_ ?_ ?_ <;> omega
  · refine noOob_set h ?_ ?_ ?_ ?_ <;> omega

lemma grass_blade_nooob (st : Canvas × RNG) (h : NoOob st.1) :
    NoOob (grass_blade st).1 := by
  unfold grass_blade
  dsimp only
  have hh := randint_bounds (randint st.2 1 14).2 6 12 (by omega)
  apply foldl_inv (fun st2 : Canvas × RNG => NoOob st2.1)
  · exact h
  · intro s2 i hi hs
    have hi2 : i < (randint (randint st.2 1 14).2 6 12).1.toNat := List.mem_range.mp hi
    exact grass_blade_pixel_nooob _ _ _ _ _ (by omega) hs

lemma tall_grass_texture_nooob (rng : RNG) : NoOob (tall_grass_texture rng) := by
  unfold tall_grass_texture
  dsimp only
  apply foldl_inv (fun st : Canvas × RNG => NoOob st.1)
  · exact canvasFill_nooob _
  · intro s2 a _ hs
    exact grass_blade_nooob _ hs

lemma stem_pixel_nooob (stem_x : Int) (st : Canvas × RNG) (k : Nat)
    (hk : k ≤ 15) (h : NoOob st.1) : NoOob (stem_pixel stem_x st k).1 := by
  unfold stem_pixel
  dsimp only
  have h1 := clamp15_bounds (stem_x + 1)
  have h2 := clamp15_bounds stem_x
  split_ifs <;> dsimp only <;> (apply noOob_set h <;> omega)

lemma leaf_point_nooob (st : Canvas × RNG) (pt : Int × Int) (h : NoOob st.1) :
    NoOob (leaf_point st pt).1 := by
  unfold leaf_point
  dsimp only
  split_ifs <;>
    repeat' first
      | exact h
      | apply noOob_set
      | omega

lemma petal_point_nooob (cx cy : Int) (c : Canvas) (ip : Nat × (Int × Int))
    (h : NoOob c) : NoOob (petal_point cx cy c ip) := by
  unfold petal_point
  dsimp only
  split_ifs <;>
    repeat' first
      | exact h
      | apply noOob_set
      | omega

lemma wildflower_texture_nooob (rng : RNG) : NoOob (wildflower_texture rng) := by
  unfold wildflower_texture
  dsimp only
  have hsx := randint_bounds rng 7 8 (by omega)
  have hst := randint_bounds (randint rng 7 8).2 5 7 (by omega)
  apply foldl_inv (fun c : Canvas => NoOob c)
  · refine noOob_set ?_ (by omega) (by omega) (by omega) (by omega)
    apply foldl_inv (fun st : Canvas × RNG => NoOob st.1)
    · apply foldl_inv (fun st : Canvas × RNG => NoOob st.1)
      · exact canvasFill_nooob _
      · intro s2 k hk hs
        have hk2 : k < 16 - (randint (randint rng 7 8).2 5 7).1.toNat := List.mem_range.mp hk
        exact stem_pixel_nooob _ _ _ (by omega) hs
    · intro s2 pt _ hs
      exact leaf_point_nooob _ _ hs
  · intro s2 ip _ hs
    exact petal_point_nooob _ _ _ _ hs

/-! ### Exactness lemmas for the color utilities -/

lemma truncInt_intCast (n : Int) : truncInt (n : ℚ) = n := by
  unfold truncInt
  rw [Rat.num_intCast, Rat.den_intCast, Nat.cast_one]
  exact Int.tdiv_one n

lemma blend_zero_clamps (c1 c2 : Color) :
    blend c1 c2 0 = Color.mk (clamp c1.r 0 255) (clamp c1.g 0 255) (clamp c1.b 0 255) := by
  unfold blend
  have e : ∀ a b : Int, (a : ℚ) + ((b : ℚ) - (a : ℚ)) * 0 = ((a : Int) : ℚ) := by
    intro a b
    ring
  rw [e, e, e, truncInt_intCast, truncInt_intCast, truncInt_intCast]

lemma blend_one_clamps (c1 c2 : Color) :
    blend c1 c2 1 = Color.mk (clamp c2.r 0 255) (clamp c2.g 0 255) (clamp c2.b 0 255) := by
  unfold blend
  have e : ∀ a b : Int, (a : ℚ) + ((b : ℚ) - (a : ℚ)) * 1 = ((b : Int) : ℚ) := by
    intro a b
    ring
  rw [e, e, e, truncInt_intCast, truncInt_intCast, truncInt_intCast]

lemma blend_zero (c1 c2 : Color) (h : ColorOk c1) : blend c1 c2 0 = c1 := by
  unfold blend
  have e : ∀ a b : Int, (a : ℚ) + ((b : ℚ) - (a : ℚ)) * 0 = ((a : Int) : ℚ) := by
    intro a b
    ring
  rw [e, e, e, truncInt_intCast, truncInt_intCast, truncInt_intCast,
    clamp_eq_self _ _ _ h.1 h.2.1, clamp_eq_self _ _ _ h.2.2.1 h.2.2.2.1,
    clamp_eq_self _ _ _ h.2.2.2.2.1 h.2.2.2.2.2]

lemma blend_one (c1 c2 : Color) (h : ColorOk c2) : blend c1 c2 1 = c2 := by
  unfold blend
  have e : ∀ a b : Int, (a : ℚ) + ((b : ℚ) - (a : ℚ)) * 1 = ((b : Int) : ℚ) := by
    intro a b
    ring
  rw [e, e, e, truncInt_intCast, truncInt_intCast, truncInt_intCast,
    clamp_eq_self _ _ _ h.1 h.2.1, clamp_eq_self _ _ _ h.2.2.1 h.2.2.2.1,
    clamp_eq_self _ _ _ h.2.2.2.2.1 h.2.2.2.2.2]

lemma randint_zero_zero (r : RNG) : (randint r (-(0 : Int)) 0).1 = 0 := by
  unfold randint RNG.next
  dsimp only
  norm_num [Int.emod_one]

lemma jitter_zero_clamps (c : Color) (r : RNG) :
    (jitter c 0 r).1 = Color.mk (clamp c.r 0 255) (clamp c.g 0 255) (clamp c.b 0 255) := by
  unfold jitter
  dsimp only
  rw [randint_zero_zero, randint_zero_zero, randint_zero_zero, add_zero, add_zero, add_zero]

lemma ediv_neg_two_bounds (d : Int) (hd : 1 ≤ d) :
    -2 ≤ (-2 : Int) / d ∧ (-2 : Int) / d ≤ 0 := by
  constructor
  · rw [Int.le_ediv_iff_mul_le (by omega : (0 : Int) < d)]
    omega
  · have h := Int.ediv_le_ediv (show (0 : Int) < d by omega) (show (-2 : Int) ≤ 0 by omega)
    rw [Int.zero_ediv] at h
    exact h

/-! ### Claim theorems -/

/-- Claim C1: for every texture recipe (make_ore_texture,
clay_deposit_texture, mossy_rubble_texture, tall_grass_texture,
wildflower_texture), for every seed and every parameter set, two
independent invocations with the same seed and parameters produce
byte-identical 16x16 RGBA grids.  A seed determines the random stream
(the RandomStream contract), so two invocations on equal streams and
equal parameters are compared. -/
theorem c1_recipes_deterministic : ∀ r1 r2 : RNG, r1 = r2 →
    ∀ (base ore_dark ore_mid ore_light : Color) (crack_count : Int),
      make_ore_texture r1 base ore_dark ore_mid ore_light crack_count =
        make_ore_texture r2 base ore_dark ore_mid ore_light crack_count ∧
      clay_deposit_texture r1 = clay_deposit_texture r2 ∧
      mossy_rubble_texture r1 = mossy_rubble_texture r2 ∧
      tall_grass_texture r1 = tall_grass_texture r2 ∧
      wildflower_texture r1 = wildflower_texture r2 := by
  intro r1 r2 h base ore_dark ore_mid ore_light crack_count
  subst h
  exact ⟨rfl, rfl, rfl, rfl, rfl⟩

/-- Witness for C1 at the coal-vein palette and a concrete stream. -/
theorem c1_witness :
    RNG.mk (fun _ => 0) 0 = RNG.mk (fun _ => 0) 0 ∧
    (make_ore_texture (RNG.mk (fun _ => 0) 0) (Color.mk 98 98 100) (Color.mk 14 14 15)
        (Color.mk 28 29 31) (Color.mk 52 54 56) 3 =
      make_ore_texture (RNG.mk (fun _ => 0) 0) (Color.mk 98 98 100) (Color.mk 14 14 15)
        (Color.mk 28 29 31) (Color.mk 52 54 56) 3 ∧
      clay_deposit_texture (RNG.mk (fun _ => 0) 0) = clay_deposit_texture (RNG.mk (fun _ => 0) 0) ∧
      mossy_rubble_texture (RNG.mk (fun _ => 0) 0) = mossy_rubble_texture (RNG.mk (fun _ => 0) 0) ∧
      tall_grass_texture (RNG.mk (fun _ => 0) 0) = tall_grass_texture (RNG.mk (fun _ => 0) 0) ∧
      wildflower_texture (RNG.mk (fun _ => 0) 0) = wildflower_texture (RNG.mk (fun _ => 0) 0)) :=
  ⟨rfl, c1_recipes_deterministic (RNG.mk (fun _ => 0) 0) (RNG.mk (fun _ => 0) 0) rfl
    (Color.mk 98 98 100) (Color.mk 14 14 15) (Color.mk 28 29 31) (Color.mk 52 54 56) 3⟩

/-- Claim C2: for every generated texture, every pixel of the 16x16 grid
and each of its four channels lies in [0, 255] after every write
performed by any base generator or feature applier (the ore palette
colors, which the appliers write unclamped, are assumed channel-bounded,
as they are for every palette in the catalog). -/
theorem c2_channel_bounds :
    (∀ (rng : RNG) (base : Color) (variation : Int) (dr lr : ℚ),
      InRange (stone_base rng base variation dr lr).1) ∧
    (∀ (img : Canvas) (rng : RNG) (d m l : Color) (n : Int),
      InRange img → ColorOk d → ColorOk m → ColorOk l →
        InRange (add_ore_speckles img rng d m l n).1) ∧
    (∀ (img : Canvas) (rng : RNG) (n : Int), InRange img → InRange (add_cracks img rng n).1) ∧
    (∀ (rng : RNG) (base d m l : Color) (n : Int), ColorOk d → ColorOk m → ColorOk l →
      InRange (make_ore_texture rng base d m l n)) ∧
    (∀ rng : RNG, InRange (clay_deposit_texture rng)) ∧
    (∀ rng : RNG, InRange (mossy_rubble_texture rng)) ∧
    (∀ rng : RNG, InRange (tall_grass_texture rng)) ∧
    (∀ rng : RNG, InRange (wildflower_texture rng)) :=
  ⟨stone_base_inrange,
   fun img rng d m l n hi hd hm hl => add_ore_speckles_inrange img rng d m l n hd hm hl hi,
   fun img rng n hi => add_cracks_inrange img rng n hi,
   fun rng base d m l n hd hm hl => make_ore_texture_inrange rng base d m l n hd hm hl,
   clay_deposit_texture_inrange,
   mossy_rubble_texture_inrange,
   tall_grass_texture_inrange,
   wildflower_texture_inrange⟩

/-- Witness for C2 at the coal-vein palette and a concrete stream. -/
theorem c2_witness :
    ColorOk (Color.mk 14 14 15) ∧ ColorOk (Color.mk 28 29 31) ∧ ColorOk (Color.mk 52 54 56) ∧
    InRange (canvasFill (Pixel.mk 0 0 0 255)) ∧
    InRange (add_cracks (canvasFill (Pixel.mk 0 0 0 255)) (RNG.mk (fun _ => 0) 0) 3).1 ∧
    InRange (make_ore_texture (RNG.mk (fun _ => 0) 0) (Color.mk 98 98 100) (Color.mk 14 14 15)
      (Color.mk 28 29 31) (Color.mk 52 54 56) 3) :=
  ⟨by decide, by decide, by decide, canvasFill_inrange _ (by decide),
   c2_channel_bounds.2.2.1 (canvasFill (Pixel.mk 0 0 0 255)) (RNG.mk (fun _ => 0) 0) 3
     (canvasFill_inrange _ (by decide)),
   c2_channel_bounds.2.2.2.1 (RNG.mk (fun _ => 0) 0) (Color.mk 98 98 100) (Color.mk 14 14 15)
     (Color.mk 28 29 31) (Color.mk 52 54 56) 3 (by decide) (by decide) (by decide)⟩

/-- Claim C3: for every stream and every valid parameter set, every pixel
write performed by any feature applier targets a coordinate inside
[0,15] x [0,15]: the sticky out-of-bounds flag is never raised, for the
standalone appliers on any canvas and for every full recipe. -/
theorem c3_coordinate_bounds :
    (∀ (img : Canvas) (rng : RNG) (d m l : Color) (n : Int),
      NoOob img → NoOob (add_ore_speckles img rng d m l n).1) ∧
    (∀ (img : Canvas) (rng : RNG) (n : Int), NoOob img → NoOob (add_cracks img rng n).1) ∧
    (∀ (rng : RNG) (base d m l : Color) (n : Int), NoOob (make_ore_texture rng base d m l n)) ∧
    (∀ rng : RNG, NoOob (clay_deposit_texture rng)) ∧
    (∀ rng : RNG, NoOob (mossy_rubble_texture rng)) ∧
    (∀ rng : RNG, NoOob (tall_grass_texture rng)) ∧
    (∀ rng : RNG, NoOob (wildflower_texture rng)) :=
  ⟨fun img rng d m l n h => add_ore_speckles_nooob img rng d m l n h,
   fun img rng n h => add_cracks_nooob img rng n h,
   make_ore_texture_nooob,
   clay_deposit_texture_nooob,
   mossy_rubble_texture_nooob,
   tall_grass_texture_nooob,
   wildflower_texture_nooob⟩

/-- Witness for C3 on a fresh canvas and a concrete stream. -/
theorem c3_witness :
    NoOob (canvasFill (Pixel.mk 0 0 0 255)) ∧
    NoOob (add_ore_speckles (canvasFill (Pixel.mk 0 0 0 255)) (RNG.mk (fun _ => 0) 0)
      (Color.mk 14 14 15) (Color.mk 28 29 31) (Color.mk 52 54 56) 5).1 :=
  ⟨rfl, c3_coordinate_bounds.1 (canvasFill (Pixel.mk 0 0 0 255)) (RNG.mk (fun _ => 0) 0)
    (Color.mk 14 14 15) (Color.mk 28 29 31) (Color.mk 52 54 56) 5 rfl⟩

/-- Claim C7 (divergence evidence): with a negative cluster_count or a
negative crack count, the appliers perform zero iterations and return the
canvas and stream unchanged — no configuration error of any kind is
raised, contradicting the spec's fail-fast requirement. -/
theorem c7_negative_count_silently_skips :
    add_ore_speckles (canvasFill (Pixel.mk 0 0 0 255)) (RNG.mk (fun _ => 0) 0)
        (Color.mk 14 14 15) (Color.mk 28 29 31) (Color.mk 52 54 56) (-1) =
      (canvasFill (Pixel.mk 0 0 0 255), RNG.mk (fun _ => 0) 0) ∧
    add_cracks (canvasFill (Pixel.mk 0 0 0 255)) (RNG.mk (fun _ => 0) 0) (-1) =
      (canvasFill (Pixel.mk 0 0 0 255), RNG.mk (fun _ => 0) 0) :=
  ⟨rfl, rfl⟩

/-- Claim C10: in wildflower_texture the flower-center write at
(stem_x, stem_top) is always in bounds for every stream: stem_x is drawn
from [7, 8] and stem_top from [5, 7], and the whole recipe never raises
the out-of-bounds flag. -/
theorem c10_flower_center_in_bounds : ∀ rng : RNG,
    7 ≤ (wildflower_center rng).1 ∧ (wildflower_center rng).1 ≤ 8 ∧
    5 ≤ (wildflower_center rng).2 ∧ (wildflower_center rng).2 ≤ 7 ∧
    NoOob (wildflower_texture rng) := by
  intro rng
  have h1 := randint_bounds rng 7 8 (by omega)
  have h2 := randint_bounds (randint rng 7 8).2 5 7 (by omega)
  refine ⟨?_, ?_, ?_, ?_, wildflower_texture_nooob rng⟩ <;>
    (unfold wildflower_center; dsimp only; omega)

/-- Claim C4, counterexample: for triples with a channel outside
[0, 255] the blend identity laws fail, because blend clamps its output;
at c1 = (300, 0, 0) both laws are violated. -/
theorem c4_counterexample :
    ¬ ((blend (Color.mk 300 0 0) (Color.mk 0 0 0) 0 = Color.mk 300 0 0) ∧
       (blend (Color.mk 0 0 0) (Color.mk 300 0 0) 1 = Color.mk 300 0 0)) := by
  rintro ⟨hA, _⟩
  rw [blend_zero_clamps] at hA
  injection hA with h1 h2 h3
  exact absurd h1 (by decide)

/-- Claim C4, amended: for integer RGB triples whose channels lie in
[0, 255], blend(c1, c2, 0) = c1 and blend(c1, c2, 1) = c2 exactly. -/
theorem c4_blend_identity : ∀ c1 c2 : Color, ColorOk c1 → ColorOk c2 →
    blend c1 c2 0 = c1 ∧ blend c1 c2 1 = c2 :=
  fun c1 c2 h1 h2 => ⟨blend_zero c1 c2 h1, blend_one c1 c2 h2⟩

/-- Witness for the amended C4 at concrete in-range colors. -/
theorem c4_witness :
    ColorOk (Color.mk 10 20 30) ∧ ColorOk (Color.mk 200 100 0) ∧
    (blend (Color.mk 10 20 30) (Color.mk 200 100 0) 0 = Color.mk 10 20 30 ∧
     blend (Color.mk 10 20 30) (Color.mk 200 100 0) 1 = Color.mk 200 100 0) :=
  ⟨by decide, by decide,
   c4_blend_identity (Color.mk 10 20 30) (Color.mk 200 100 0) (by decide) (by decide)⟩

/-- Claim C5, counterexample: jitter with amount 0 clamps, so a color
with a channel outside [0, 255] is not returned unchanged. -/
theorem c5_counterexample :
    (jitter (Color.mk 300 0 0) 0 (RNG.mk (fun _ => 0) 0)).1 ≠ Color.mk 300 0 0 := by
  decide

/-- Claim C5, amended: for every color whose channels lie in [0, 255],
jitter with amount 0 returns the color unchanged, and for every color
the result does not depend on the stream's state. -/
theorem c5_jitter_zero : ∀ (c : Color) (r1 r2 : RNG),
    (ColorOk c → (jitter c 0 r1).1 = c) ∧ (jitter c 0 r1).1 = (jitter c 0 r2).1 := by
  intro c r1 r2
  constructor
  · intro h
    rw [jitter_zero_clamps, clamp_eq_self _ _ _ h.1 h.2.1,
      clamp_eq_self _ _ _ h.2.2.1 h.2.2.2.1, clamp_eq_self _ _ _ h.2.2.2.2.1 h.2.2.2.2.2]
  · rw [jitter_zero_clamps, jitter_zero_clamps]

/-- Witness for the amended C5 at a concrete color and two different
stream states. -/
theorem c5_witness :
    ColorOk (Color.mk 10 20 30) ∧
    (jitter (Color.mk 10 20 30) 0 (RNG.mk (fun _ => 0) 0)).1 = Color.mk 10 20 30 ∧
    (jitter (Color.mk 10 20 30) 0 (RNG.mk (fun _ => 0) 0)).1 =
      (jitter (Color.mk 10 20 30) 0 (RNG.mk (fun n => n + 7) 5)).1 :=
  ⟨by decide,
   (c5_jitter_zero (Color.mk 10 20 30) (RNG.mk (fun _ => 0) 0) (RNG.mk (fun n => n + 7) 5)).1
     (by decide),
   (c5_jitter_zero (Color.mk 10 20 30) (RNG.mk (fun _ => 0) 0) (RNG.mk (fun n => n + 7) 5)).2⟩

/-- Claim C6, counterexample: no choice of three distinct positive
per-channel divisors makes the claimed formula (row base + stripe +
noise + drift applied to every channel with per-channel divisors) match
the code, which adds the drift only to the red channel and divides the
noise (not the drift) by 2 and 3 on green and blue: at noise 5 and
drift -2standard the green channel already disagrees for every divisor. -/
theorem c6_counterexample :
    ¬ ∃ d1 d2 d3 : Int, (1 ≤ d1 ∧ 1 ≤ d2 ∧ 1 ≤ d3 ∧ d1 ≠ d2 ∧ d2 ≠ d3 ∧ d1 ≠ d3) ∧
      ∀ (row_base : Color) (stripe noise x y : Int), -5 ≤ noise → noise ≤ 5 →
        clay_pixel_value row_base stripe noise x y =
          clay_pixel_claimed row_base stripe noise ((x + y) % 5 - 2) d1 d2 d3 := by
  rintro ⟨d1, d2, d3, ⟨hd1, hd2, hd3, hne1, hne2, hne3⟩, hall⟩
  have h := hall (Color.mk 100 100 100) 0 5 0 0 (by omega) (by omega)
  rw [show ((0 + 0 : Int) % 5 - 2) = -2 from by decide] at h
  rw [show clay_pixel_value (Color.mk 100 100 100) 0 5 0 0 = Pixel.mk 103 102 101 255
    from by decide] at h
  simp only [clay_pixel_claimed] at h
  injection h with hr hg hbb ha
  have hb := ediv_neg_two_bounds d2 hd2
  unfold clamp at hg
  generalize hE : (-2 : Int) / d2 = e at hg hb
  omega

/-- Claim C6, amended: every clay pixel is the row base color plus the
stripe offset, where the red channel additionally gets the full noise
draw plus the positional drift ((x + y) mod 5) - 2, while the green and
blue channels get the noise floor-divided by 2 and 3 respectively and no
drift; the per-pixel noise is a single draw from [-5, 5]. -/
theorem c6_clay_pixel_formula : ∀ (row_base : Color) (stripe : Int) (c : Canvas) (rng : RNG)
    (x y : Int),
    clay_pixel row_base stripe (c, rng) x y =
      (c.set x y (clay_pixel_value row_base stripe (randint rng (-5) 5).1 x y),
        (randint rng (-5) 5).2) ∧
    -5 ≤ (randint rng (-5) 5).1 ∧ (randint rng (-5) 5).1 ≤ 5 := by
  intro row_base stripe c rng x y
  have hb := randint_bounds rng (-5) 5 (by omega)
  exact ⟨rfl, hb.1, hb.2⟩

/-- Claim C8: the per-offset ore speckle body equals, for all inputs,
the spec-side formulation (single uniform tier draw compared against
0.20 and 0.80, then two separate bounds-guarded probability checks for
the light-right and dark-below neighbors), and the tier choice realizes
the 20% / 60% / 20% split of the unit interval. -/
theorem c8_speckle_offset_matches_spec :
    (∀ (d m l : Color) (cx cy : Int) (st : Canvas × RNG) (off : Int × Int),
      speckle_offset_step d m l cx cy st off = speckle_offset_claimed d m l cx cy st off) ∧
    (∀ (pick : ℚ) (d m l : Color),
      (pick < 0.20 → tier_color pick d m l = d) ∧
      (0.20 ≤ pick → pick < 0.80 → tier_color pick d m l = m) ∧
      (0.80 ≤ pick → tier_color pick d m l = l)) := by
  constructor
  · intro d m l cx cy st off
    rfl
  · intro pick d m l
    refine ⟨?_, ?_, ?_⟩
    · intro h1
      unfold tier_color
      rw [if_pos h1]
    · intro h1 h2
      unfold tier_color
      rw [if_neg (not_lt.mpr h1), if_pos h2]
    · intro h1
      unfold tier_color
      rw [if_neg (not_lt.mpr (by linarith)), if_neg (not_lt.mpr h1)]

/-- Witness for C8: the three tier outcomes at concrete draws 0.1, 0.5
and 0.9. -/
theorem c8_witness :
    ((0.1 : ℚ) < 0.20 ∧
      tier_color 0.1 (Color.mk 1 1 1) (Color.mk 2 2 2) (Color.mk 3 3 3) = Color.mk 1 1 1) ∧
    ((0.20 : ℚ) ≤ 0.5 ∧ (0.5 : ℚ) < 0.80 ∧
      tier_color 0.5 (Color.mk 1 1 1) (Color.mk 2 2 2) (Color.mk 3 3 3) = Color.mk 2 2 2) ∧
    ((0.80 : ℚ) ≤ 0.9 ∧
      tier_color 0.9 (Color.mk 1 1 1) (Color.mk 2 2 2) (Color.mk 3 3 3) = Color.mk 3 3 3) :=
  ⟨⟨by norm_num,
    (c8_speckle_offset_matches_spec.2 0.1 (Color.mk 1 1 1) (Color.mk 2 2 2) (Color.mk 3 3 3)).1
      (by norm_num)⟩,
   ⟨by norm_num, by norm_num,
    (c8_speckle_offset_matches_spec.2 0.5 (Color.mk 1 1 1) (Color.mk 2 2 2)
      (Color.mk 3 3 3)).2.1 (by norm_num) (by norm_num)⟩,
   ⟨by norm_num,
    (c8_speckle_offset_matches_spec.2 0.9 (Color.mk 1 1 1) (Color.mk 2 2 2)
      (Color.mk 3 3 3)).2.2 (by norm_num)⟩⟩

/-- Claim C9: both fleck branches of stone_base draw the amount
independently for each of the three channels — three separate draws from
[8, 20], one per channel in R, G, B order — as the spec-side
formulation states; and at the identity stream the three channels of one
dark fleck change by the pairwise different amounts 8, 9 and 10, so a
single shared amount per fleck is not used. -/
theorem c9_fleck_amounts_per_channel :
    (∀ (c : Color) (rng : RNG),
      fleck_dark c rng = fleck_dark_claimed c rng ∧
      fleck_light c rng = fleck_light_claimed c rng) ∧
    (fleck_dark (Color.mk 100 100 100) (RNG.mk (fun n => n) 0)).1 = Color.mk 92 91 90 := by
  constructor
  · intro c rng
    exact ⟨rfl, rfl⟩
  · decide
